import Mathlib

/-!
Shallow embedding over the real numbers of the environment-builder
reference provider (src/lib.rs).  External dependencies are modelled
abstractly: each libnoise simplex generator is an arbitrary real-valued
function of two coordinates, obtained from an abstract seed-to-sampler
source passed to the constructor; the f64 math functions are the real
analytic functions.  Everything else is a direct transcription of the
source.
-/

noncomputable section

/-- A sampler of one noise layer: the model of a constructed
`Simplex<2>` generator, as an arbitrary function of the two coordinates. -/
def NoiseFn : Type := ℝ → ℝ → ℝ

/-- Real model of the `f64::MAX` constant used to initialise the running
minimum of the gradient search. -/
def f64MAX : ℝ := (2 - (2 : ℝ) ^ (-52 : ℤ)) * (2 : ℝ) ^ (1023 : ℕ)

/-- Real model of Rust's `f64::signum` (for non-NaN inputs): `-1` for
negative values, `1` otherwise (real zero stands for `+0.0`). -/
def rustSignum (x : ℝ) : ℝ := if x < 0 then -1 else 1

/-- `ValueRange` from src/lib.rs. -/
structure ValueRange where
  min : ℝ
  max : ℝ

/-- `ValueWithNormalized` from src/lib.rs. -/
structure ValueWithNormalized where
  value : ℝ
  normalized : ℝ

/-- `ValueWithNormalized::from_normalized` from src/lib.rs. -/
def ValueWithNormalized.from_normalized (normalized : ℝ) (range : ValueRange) :
    ValueWithNormalized :=
  { value := range.min + normalized * (range.max - range.min)
    normalized := normalized }

/-- `PrimitiveElevationFactors` from src/lib.rs. -/
structure PrimitiveElevationFactors where
  shelf : ℝ
  persistence : ValueWithNormalized
  land_base : ℝ
  elevation : ValueWithNormalized

/-- `EnvironmentFactors` from src/lib.rs. -/
structure EnvironmentFactors where
  virtual_latitude : ℝ
  temperature_surface : ℝ
  atmosphere_pressure_normalized : ℝ
  atmosphere_current_angle : ℝ
  atmosphere_current_magnitude : ℝ
  primitive_elevation_factors : PrimitiveElevationFactors
  ocean_current_angle : ℝ
  ocean_current_magnitude : ℝ

def NOISE_PRIMITIVE_CONTINENT : ℕ := 0
def NOISE_PRIMITIVE_PERSISTENCE : ℕ := 1
def NOISE_PRIMITIVE_LAND : ℕ := 2
def NOISE_OCEAN_CURRENT : ℕ := 3
def NOISE_ATMOSPHERE_PRESSURE : ℕ := 4
def NOISE_END : ℕ := 10

/-- `ReferenceEnvironmentParameters` from src/lib.rs.  The three boxed
closures are modelled as plain functions. -/
structure ReferenceEnvironmentParameters where
  primitive_shelf_scale : ℝ
  primitive_shelf_power : ℝ
  primitive_shelf_depth : ℝ
  primitive_persistence_range : ValueRange
  primitive_persistence_scale : ℝ
  primitive_land_scale : ℝ
  primitive_land_power : ℝ
  primitive_elevation_range : ValueRange
  ocean_current_scale : ℝ
  ocean_current_elevation_effect_distance : ℝ
  virtual_latitude_fn : ℝ → ℝ → ℝ
  valid_fn : ℝ → ℝ → Bool
  temperature_surface_fn : ℝ → ℝ
  gradient_sample_num : ℤ
  gradient_iteration : ℕ
  atmosphere_pressure_scale : ℝ
  atmosphere_pressure_noise_prop : ℝ

/-- The `Default` instance for `ReferenceEnvironmentParameters`
(src/lib.rs lines 105-137). -/
def defaultParameters : ReferenceEnvironmentParameters where
  primitive_shelf_scale := 1
  primitive_shelf_power := 0.5
  primitive_shelf_depth := 0.3
  primitive_persistence_range := { min := 0.2, max := 0.8 }
  primitive_persistence_scale := 0.3
  primitive_land_scale := 1
  primitive_land_power := 2
  primitive_elevation_range := { min := -5000, max := 5000 }
  ocean_current_scale := 0.8
  ocean_current_elevation_effect_distance := 0.3
  virtual_latitude_fn := fun _ y => Real.sin (y * Real.pi / 4)
  valid_fn := fun _ y => decide (|y| < 1)
  temperature_surface_fn := fun lat => 30 * (1 - Real.sin |lat| * 3)
  gradient_sample_num := 16
  gradient_iteration := 2
  atmosphere_pressure_scale := 1
  atmosphere_pressure_noise_prop := 0.2

/-- `ReferenceEnvironmentProvider` from src/lib.rs: the vector of seeded
simplex generators plus the parameters. -/
structure ReferenceEnvironmentProvider where
  noises : List NoiseFn
  params : ReferenceEnvironmentParameters

/-- `ReferenceEnvironmentProvider::new` (src/lib.rs lines 146-158).
`source` models the external `Source::simplex` constructor (seed to
sampler); with explicit seeds layer `i` is seeded with `seeds[i]`,
otherwise with the layer index itself. -/
def ReferenceEnvironmentProvider.new (source : ℕ → NoiseFn)
    (seeds : Option (Fin NOISE_END → ℕ)) (params : ReferenceEnvironmentParameters) :
    ReferenceEnvironmentProvider :=
  { noises :=
      match seeds with
      | some seeds => (List.finRange NOISE_END).map (fun i => source (seeds i))
      | none => (List.range NOISE_END).map (fun i => source i)
    params := params }

/-- State of the octave accumulation loop in `get_noise`
(src/lib.rs lines 164-173): `value`, `amplitude`, `frequency`,
`max_value`. -/
structure OctaveState where
  value : ℝ
  amplitude : ℝ
  frequency : ℝ
  max_value : ℝ

/-- One pass of the octave loop body of `get_noise`. -/
def octaveStep (noise : NoiseFn) (x y persistence : ℝ) (s : OctaveState) : OctaveState :=
  { value := s.value + noise (x * s.frequency) (y * s.frequency) * s.amplitude
    amplitude := s.amplitude * persistence
    frequency := s.frequency * 2
    max_value := s.max_value + s.amplitude }

/-- The octave loop of `get_noise`, run `octaves` times from the initial
state `value = 0, amplitude = 1, frequency = 1, max_value = 0`. -/
def octaveIter (noise : NoiseFn) (x y persistence : ℝ) : ℕ → OctaveState
  | 0 => { value := 0, amplitude := 1, frequency := 1, max_value := 0 }
  | n + 1 => octaveStep noise x y persistence (octaveIter noise x y persistence n)

/-- `ReferenceEnvironmentProvider::get_noise` (src/lib.rs lines 160-175). -/
def ReferenceEnvironmentProvider.get_noise (P : ReferenceEnvironmentProvider)
    (x y : ℝ) (octaves : ℕ) (persistence : ℝ) (idx : ℕ) : ℝ :=
  if idx ≥ P.noises.length then 0
  else
    let s := octaveIter (P.noises.getD idx (fun _ _ => 0)) x y persistence octaves
    s.value / s.max_value

/-- `ReferenceEnvironmentProvider::get_primitive_elevation_factors`
(src/lib.rs lines 177-221).  Rust's `powf` on the nonnegative bases used
here is `Real.rpow`. -/
def ReferenceEnvironmentProvider.get_primitive_elevation_factors
    (P : ReferenceEnvironmentProvider) (x y : ℝ) : PrimitiveElevationFactors :=
  let primitive_shelf :=
    let x := x / P.params.primitive_shelf_scale
    let y := y / P.params.primitive_shelf_scale
    let n := P.get_noise x y 3 0.5 NOISE_PRIMITIVE_CONTINENT
    (Real.rpow |n| P.params.primitive_shelf_power * rustSignum n - 1) *
      P.params.primitive_shelf_depth
  let primitive_persistence :=
    let x := x / P.params.primitive_persistence_scale
    let y := y / P.params.primitive_persistence_scale
    ValueWithNormalized.from_normalized
      (P.get_noise x y 3 0.5 NOISE_PRIMITIVE_PERSISTENCE * 0.5 + 0.5)
      P.params.primitive_persistence_range
  let primitive_land_base :=
    let x := x / P.params.primitive_land_scale
    let y := y / P.params.primitive_land_scale
    |P.get_noise x y 8 primitive_persistence.value NOISE_PRIMITIVE_LAND|
  let pe := primitive_land_base + primitive_shelf
  let primitive_elevation_normalized :=
    if pe > 0 then Real.rpow pe P.params.primitive_land_power else pe
  let primitive_elevation :=
    ValueWithNormalized.from_normalized primitive_elevation_normalized
      P.params.primitive_elevation_range
  { shelf := primitive_shelf
    persistence := primitive_persistence
    land_base := primitive_land_base
    elevation := primitive_elevation }

/-- State threaded through the outer loop of `get_gradient`
(src/lib.rs lines 230-250): `final_angle`, `final_value` and the current
angular range. -/
structure GradState where
  final_angle : ℝ
  final_value : ℝ
  range_lo : ℝ
  range_hi : ℝ

/-- Body of the inner sampling loop of `get_gradient` (src/lib.rs lines
237-246): the accumulator is the running `(min_value, min_angle)` pair,
`i` the sample index. -/
def innerStep (f : NoiseFn) (x y d r0 stp : ℝ) (acc : ℝ × ℝ) (i : ℕ) : ℝ × ℝ :=
  let angle := r0 + stp * (i : ℝ)
  let dx := Real.cos angle * d
  let dy := Real.sin angle * d
  let value := f (x + dx) (y + dy)
  if value < acc.1 then (value, angle) else acc

/-- One outer iteration of `get_gradient` (src/lib.rs lines 233-250). -/
def gradStep (sample_num : ℤ) (f : NoiseFn) (x y d : ℝ) (st : GradState) : GradState :=
  let stp := (st.range_hi - st.range_lo) / ((sample_num - 1 : ℤ) : ℝ)
  let m := (List.range sample_num.toNat).foldl (innerStep f x y d st.range_lo stp)
    (f64MAX, 0)
  { final_angle := m.2
    final_value := m.1
    range_lo := m.2 - stp * 0.5
    range_hi := m.2 + stp * 0.5 }

/-- The outer loop of `get_gradient`, run `gradient_iteration` times. -/
def gradIterate (sample_num : ℤ) (f : NoiseFn) (x y d : ℝ) : ℕ → GradState → GradState
  | 0, st => st
  | k + 1, st => gradIterate sample_num f x y d k (gradStep sample_num f x y d st)

/-- `ReferenceEnvironmentProvider::get_gradient` (src/lib.rs lines
223-256): returns `(final_angle, (final_value - f x y) / d)`. -/
def ReferenceEnvironmentProvider.get_gradient (P : ReferenceEnvironmentProvider)
    (x y d : ℝ) (f : NoiseFn) : ℝ × ℝ :=
  let st := gradIterate P.params.gradient_sample_num f x y d
    P.params.gradient_iteration
    { final_angle := 0, final_value := 0, range_lo := 0, range_hi := Real.pi * 2 }
  (st.final_angle, (st.final_value - f x y) / d)

/-- `ReferenceEnvironmentProvider::create_vector_field_noise`
(src/lib.rs lines 258-269). -/
def ReferenceEnvironmentProvider.create_vector_field_noise
    (P : ReferenceEnvironmentProvider) (x y : ℝ) (f : NoiseFn)
    (angle_offset dist_grad : ℝ) : ℝ × ℝ :=
  let g := P.get_gradient x y dist_grad f
  (g.1 + angle_offset, g.2)

/-- The ocean-current field closure of `get_factors` (src/lib.rs lines
284-292). -/
def oceanCurrentNoiseFn (P : ReferenceEnvironmentProvider) : NoiseFn := fun x y =>
  P.get_noise (x / P.params.ocean_current_scale) (y / P.params.ocean_current_scale)
    1 0 NOISE_OCEAN_CURRENT

/-- The `perlin_noise_max_gradient` calibration constant of `get_factors`
(src/lib.rs lines 302-305). -/
def perlin_noise_max_gradient : ℝ :=
  let pnmg1d : ℝ := 30 / 8
  2 * Real.sqrt (pnmg1d * pnmg1d * 2)

/-- The atmosphere-pressure field closure of `get_factors` (src/lib.rs
lines 326-333): the latitude band is computed from the unscaled `y`, the
noise from the scaled coordinates. -/
def atmospherePressureFn (P : ReferenceEnvironmentProvider) : NoiseFn := fun x y =>
  let base := -(Real.cos (y * Real.pi * 2)) * 0.5 + 0.5
  let x := x / P.params.atmosphere_pressure_scale
  let y := y / P.params.atmosphere_pressure_scale
  let noise := P.get_noise x y 1 0.5 NOISE_ATMOSPHERE_PRESSURE
  base * (1 - P.params.atmosphere_pressure_noise_prop) +
    noise * P.params.atmosphere_pressure_noise_prop

/-- The body of `get_factors` past the validity gate (src/lib.rs lines
282-358), assembling the `EnvironmentFactors` bundle. -/
def factorsAt (P : ReferenceEnvironmentProvider) (x y : ℝ) : EnvironmentFactors :=
  let pef := P.get_primitive_elevation_factors x y
  let oc := P.create_vector_field_noise x y (oceanCurrentNoiseFn P) (Real.pi / 4) 1e-9
  let ocean_current_angle := oc.1
  let ocean_current_diff := oc.2
  let ocean_current_magnitude :=
    ocean_current_diff * (1 - max pef.elevation.normalized 0) /
      perlin_noise_max_gradient * P.params.ocean_current_scale
  let latitude := P.params.virtual_latitude_fn x y
  let temperature_surface :=
    let dx := Real.cos ocean_current_angle *
      P.params.ocean_current_elevation_effect_distance * ocean_current_magnitude
    let dy := Real.sin ocean_current_angle *
      P.params.ocean_current_elevation_effect_distance * ocean_current_magnitude
    P.params.temperature_surface_fn (P.params.virtual_latitude_fn (x + dx) (y + dy))
  let atmosphere_pressure_normalized := atmospherePressureFn P x y
  let ac := P.create_vector_field_noise x y (atmospherePressureFn P)
    (-(Real.arctan (|Real.tan ((y + 0.5) * Real.pi)| * Real.sin (y * Real.pi)))) 1e-5
  let atmosphere_current_angle := ac.1
  let atmosphere_current_magnitude := ac.2 / Real.pi
  { virtual_latitude := latitude
    temperature_surface := temperature_surface
    atmosphere_pressure_normalized := atmosphere_pressure_normalized
    atmosphere_current_angle := atmosphere_current_angle
    atmosphere_current_magnitude := atmosphere_current_magnitude
    primitive_elevation_factors := pef
    ocean_current_angle := ocean_current_angle
    ocean_current_magnitude := ocean_current_magnitude }

/-- `ReferenceEnvironmentProvider::get_factors` (src/lib.rs lines
277-358): the validity gate followed by the field assembly. -/
def ReferenceEnvironmentProvider.get_factors (P : ReferenceEnvironmentProvider)
    (x y : ℝ) : Option EnvironmentFactors :=
  if P.params.valid_fn x y then some (factorsAt P x y) else none

/-! Specification-side restatement of the gradient estimator, following
the words of the spec (section 4.2): per iteration the field is sampled
at equally spaced angles spanning the current range, the minimum-valued
sample is kept, and the range narrows to that angle plus or minus half
the angular step. -/

/-- The angular step of one iteration: current range width divided by
`sample_num - 1`. -/
def stepWidth (sample_num : ℤ) (st : GradState) : ℝ :=
  (st.range_hi - st.range_lo) / ((sample_num - 1 : ℤ) : ℝ)

/-- The `(value, angle)` pair sampled at the `i`-th equally spaced angle. -/
def samplePoint (f : NoiseFn) (x y d r0 stp : ℝ) (i : ℕ) : ℝ × ℝ :=
  (f (x + Real.cos (r0 + stp * (i : ℝ)) * d) (y + Real.sin (r0 + stp * (i : ℝ)) * d),
    r0 + stp * (i : ℝ))

/-- The list of samples of one iteration. -/
def specSamples (f : NoiseFn) (x y d r0 stp : ℝ) (n : ℕ) : List (ℝ × ℝ) :=
  (List.range n).map (samplePoint f x y d r0 stp)

/-- Keep the candidate with the strictly smaller value. -/
def argminStep (acc p : ℝ × ℝ) : ℝ × ℝ := if p.1 < acc.1 then p else acc

/-- The first sample attaining the minimum value of the list. -/
def firstMinSample (l : List (ℝ × ℝ)) (dflt : ℝ × ℝ) : ℝ × ℝ :=
  match l with
  | [] => dflt
  | p :: rest => rest.foldl argminStep p

/-- The samples of one iteration starting from state `st`. -/
def iterSamples (sample_num : ℤ) (f : NoiseFn) (x y d : ℝ) (st : GradState) :
    List (ℝ × ℝ) :=
  specSamples f x y d st.range_lo (stepWidth sample_num st) sample_num.toNat

/-- The minimum-valued sample of one iteration starting from state `st`. -/
def iterMin (sample_num : ℤ) (f : NoiseFn) (x y d : ℝ) (st : GradState) : ℝ × ℝ :=
  firstMinSample (iterSamples sample_num f x y d st) (f64MAX, 0)

/-- One iteration as the spec describes it: keep the minimum-valued
sample's angle and value, narrow the range to that angle plus or minus
half the step. -/
def specGradStep (sample_num : ℤ) (f : NoiseFn) (x y d : ℝ) (st : GradState) :
    GradState :=
  { final_angle := (iterMin sample_num f x y d st).2
    final_value := (iterMin sample_num f x y d st).1
    range_lo := (iterMin sample_num f x y d st).2 - stepWidth sample_num st * 0.5
    range_hi := (iterMin sample_num f x y d st).2 + stepWidth sample_num st * 0.5 }

/-- The spec-side iteration loop. -/
def specGradIterate (sample_num : ℤ) (f : NoiseFn) (x y d : ℝ) :
    ℕ → GradState → GradState
  | 0, st => st
  | k + 1, st => specGradIterate sample_num f x y d k (specGradStep sample_num f x y d st)

/-- The spec-side gradient estimator: iterate from the full angular range
`(0, 2 pi)` and return the last iteration's minimizing angle together
with the slope `(final_min_value - f x y) / d`. -/
def specGradient (sample_num : ℤ) (iters : ℕ) (f : NoiseFn) (x y d : ℝ) : ℝ × ℝ :=
  let st := specGradIterate sample_num f x y d iters
    { final_angle := 0, final_value := 0, range_lo := 0, range_hi := Real.pi * 2 }
  (st.final_angle, (st.final_value - f x y) / d)

/-! Concrete configurations used to exercise the theorems below. -/

/-- A seed-to-sampler source whose every generator is constantly zero. -/
def zeroSource : ℕ → NoiseFn := fun _ _ _ => 0

/-- A seed-to-sampler source whose every generator is constantly `-1`
(a value inside the simplex output range `[-1, 1]`). -/
def negSource : ℕ → NoiseFn := fun _ _ _ => -1

/-- A source whose land-layer generator (default seed `2`) is constantly
`1` and whose other generators are constantly zero. -/
def landOneSource : ℕ → NoiseFn := fun s _ _ => if s = 2 then 1 else 0

/-- Provider with default parameters, default seeds and zero noise. -/
def defaultProvider : ReferenceEnvironmentProvider :=
  ReferenceEnvironmentProvider.new zeroSource none defaultParameters

/-- Provider with default parameters whose continent noise is constantly
`-1`. -/
def negProvider : ReferenceEnvironmentProvider :=
  ReferenceEnvironmentProvider.new negSource none defaultParameters

/-- Default parameters degenerated so the elevation model returns
`normalized = 1` (full land) everywhere: no shelf depth, constant
persistence, and a land layer saturated at `1`. -/
def fullLandParams : ReferenceEnvironmentParameters :=
  { defaultParameters with
      primitive_shelf_depth := 0
      primitive_persistence_range := { min := 0.5, max := 0.5 } }

/-- Full-land provider used for the current-elevation coupling. -/
def fullLandProvider : ReferenceEnvironmentProvider :=
  ReferenceEnvironmentProvider.new landOneSource none fullLandParams

/-- Misconfigured parameters: zero-valued scale divisors and a gradient
sampler count of `1`. -/
def badParams : ReferenceEnvironmentParameters :=
  { defaultParameters with
      primitive_shelf_scale := 0
      primitive_persistence_scale := 0
      primitive_land_scale := 0
      ocean_current_scale := 0
      atmosphere_pressure_scale := 0
      gradient_sample_num := 1 }

/-- Provider built from the misconfigured parameters. -/
def badProvider : ReferenceEnvironmentProvider :=
  ReferenceEnvironmentProvider.new zeroSource none badParams

/-- Default parameters with the smallest legitimate gradient
configuration. -/
def gradParams : ReferenceEnvironmentParameters :=
  { defaultParameters with
      gradient_sample_num := 2
      gradient_iteration := 1 }

/-- Provider built from `gradParams` with zero noise. -/
def gradProvider : ReferenceEnvironmentProvider :=
  ReferenceEnvironmentProvider.new zeroSource none gradParams

/-! Helper lemmas. -/

lemma f64MAX_pos : 0 < f64MAX := by
  unfold f64MAX
  have h2 : (0:ℝ) < 2 ^ (1023 : ℕ) := by positivity
  have h52 : (1:ℝ) ≤ 2 ^ (52 : ℕ) := by norm_num
  have h1 : (2:ℝ) ^ (-52 : ℤ) ≤ 1 := by
    rw [show (-52 : ℤ) = -((52 : ℕ) : ℤ) from rfl, zpow_neg, zpow_natCast]
    exact inv_le_one_of_one_le₀ h52
  exact mul_pos (by linarith) h2

lemma noises_new_none_length (source : ℕ → NoiseFn)
    (params : ReferenceEnvironmentParameters) :
    (ReferenceEnvironmentProvider.new source none params).noises.length = 10 := by
  simp [ReferenceEnvironmentProvider.new, NOISE_END]

lemma noises_new_none_getD (source : ℕ → NoiseFn)
    (params : ReferenceEnvironmentParameters) (k : ℕ) (hk : k < 10) (dflt : NoiseFn) :
    (ReferenceEnvironmentProvider.new source none params).noises.getD k dflt
      = source k := by
  show ((List.range NOISE_END).map source).getD k dflt = source k
  rw [show List.range NOISE_END = [0, 1, 2, 3, 4, 5, 6, 7, 8, 9] from by decide]
  interval_cases k <;> rfl

lemma octave_amplitude_pos (noise : NoiseFn) (x y p : ℝ) (hp : 0 < p) (n : ℕ) :
    0 < (octaveIter noise x y p n).amplitude := by
  induction n with
  | zero => exact one_pos
  | succ n ih => exact mul_pos ih hp

lemma octave_max_nonneg (noise : NoiseFn) (x y p : ℝ) (hp : 0 < p) (n : ℕ) :
    0 ≤ (octaveIter noise x y p n).max_value := by
  induction n with
  | zero => exact le_refl 0
  | succ n ih =>
    exact add_nonneg ih (le_of_lt (octave_amplitude_pos noise x y p hp n))

lemma octave_max_pos (noise : NoiseFn) (x y p : ℝ) (hp : 0 < p) (n : ℕ) (hn : 1 ≤ n) :
    0 < (octaveIter noise x y p n).max_value := by
  obtain ⟨m, rfl⟩ : ∃ m, n = m + 1 := ⟨n - 1, by omega⟩
  exact add_pos_of_nonneg_of_pos (octave_max_nonneg noise x y p hp m)
    (octave_amplitude_pos noise x y p hp m)

lemma octave_const_value (noise : NoiseFn) (c x y p : ℝ)
    (hc : ∀ a b, noise a b = c) (n : ℕ) :
    (octaveIter noise x y p n).value = c * (octaveIter noise x y p n).max_value := by
  induction n with
  | zero => simp [octaveIter]
  | succ n ih =>
    show (octaveIter noise x y p n).value + _ = _
    rw [ih, hc]
    show _ = c * ((octaveIter noise x y p n).max_value + _)
    ring

/-- A fractal sample of a constant in-range generator is that constant,
for any positive persistence and at least one octave. -/
lemma get_noise_const (P : ReferenceEnvironmentProvider) (c x y p : ℝ) (idx n : ℕ)
    (hidx : idx < P.noises.length)
    (hc : ∀ a b, P.noises.getD idx (fun _ _ => 0) a b = c)
    (hp : 0 < p) (hn : 1 ≤ n) :
    P.get_noise x y n p idx = c := by
  unfold ReferenceEnvironmentProvider.get_noise
  rw [if_neg (not_le.mpr hidx)]
  show (octaveIter _ x y p n).value / (octaveIter _ x y p n).max_value = c
  rw [octave_const_value _ c x y p hc n]
  exact mul_div_cancel_right₀ c
    (ne_of_gt (octave_max_pos _ x y p hp n hn))

lemma abs_zero_lt_one : |(0:ℝ)| < 1 := by rw [abs_zero]; exact zero_lt_one

lemma get_factors_of_valid (P : ReferenceEnvironmentProvider) (x y : ℝ)
    (h : P.params.valid_fn x y = true) :
    P.get_factors x y = some (factorsAt P x y) := by
  unfold ReferenceEnvironmentProvider.get_factors
  rw [h]
  rfl

/-! Claim theorems. -/

/-- C1: `get_factors (x, y)` is `none` exactly when the configured
validity predicate is false at `(x, y)`; with the default predicate,
any `|y| >= 1` yields `none` and any `|y| < 1` yields `some`. -/
theorem c1_validity_gating (P : ReferenceEnvironmentProvider) (x y : ℝ) :
    (P.get_factors x y = none ↔ P.params.valid_fn x y = false) ∧
    (P.params.valid_fn = defaultParameters.valid_fn →
      ((1 ≤ |y| → P.get_factors x y = none) ∧
       (|y| < 1 → (P.get_factors x y).isSome = true))) := by
  constructor
  · unfold ReferenceEnvironmentProvider.get_factors
    cases h : P.params.valid_fn x y <;> simp [h]
  · intro hdef
    have hv : P.params.valid_fn x y = decide (|y| < 1) := by rw [hdef]; exact rfl
    constructor
    · intro hy
      unfold ReferenceEnvironmentProvider.get_factors
      rw [hv, decide_eq_false (not_lt.mpr hy)]
      rfl
    · intro hy
      unfold ReferenceEnvironmentProvider.get_factors
      rw [hv, decide_eq_true hy]
      rfl

/-- Witness for C1: with default parameters, the query at `(0, 1)` is
rejected. -/
theorem c1_witness : defaultProvider.get_factors 0 1 = none :=
  ((c1_validity_gating defaultProvider 0 1).2 rfl).1 abs_one.symm.le

/-- C2: `get_factors` is a pure function of the construction inputs and
the query point: equal seed arrays (or the default layer-index seeds)
give equal results, and two calls at the same point are identical. -/
theorem c2_determinism (source : ℕ → NoiseFn) (seeds seeds2 : Fin NOISE_END → ℕ)
    (params : ReferenceEnvironmentParameters) (x y : ℝ)
    (h : ∀ i, seeds i = seeds2 i) :
    (ReferenceEnvironmentProvider.new source (some seeds) params).get_factors x y
      = (ReferenceEnvironmentProvider.new source (some seeds2) params).get_factors x y ∧
    (ReferenceEnvironmentProvider.new source none params).get_factors x y
      = (ReferenceEnvironmentProvider.new source none params).get_factors x y := by
  have hs : seeds = seeds2 := funext h
  subst hs
  exact ⟨rfl, rfl⟩

/-- Witness for C2 at a concrete seed array and query point. -/
theorem c2_witness :
    (ReferenceEnvironmentProvider.new zeroSource (some fun _ => 5) defaultParameters).get_factors
        0 0
      = (ReferenceEnvironmentProvider.new zeroSource (some fun _ => 5)
          defaultParameters).get_factors 0 0 ∧
    (ReferenceEnvironmentProvider.new zeroSource none defaultParameters).get_factors 0 0
      = (ReferenceEnvironmentProvider.new zeroSource none defaultParameters).get_factors
          0 0 :=
  c2_determinism zeroSource (fun _ => 5) (fun _ => 5) defaultParameters 0 0 fun _ => rfl

/-- C6 counterexample: with zero scale divisors and
`gradient_sample_num = 1`, construction succeeds anyway and a later
query still returns `some` — no configuration error is raised. -/
theorem c6_counterexample :
    badProvider.params.gradient_sample_num = 1 ∧
    badProvider.params.primitive_shelf_scale = 0 ∧
    badProvider.params.ocean_current_scale = 0 ∧
    (badProvider.get_factors 0 0).isSome = true := by
  refine ⟨rfl, rfl, rfl, ?_⟩
  rw [get_factors_of_valid badProvider 0 0 (decide_eq_true abs_zero_lt_one)]
  rfl

/-- C6 amended: construction performs no validation at all — `new` is
total and stores the parameters unchanged for every configuration, and
even with zero divisors and `gradient_sample_num = 1` queries proceed to
return `some`. -/
theorem c6_no_construction_validation (source : ℕ → NoiseFn)
    (seeds : Option (Fin NOISE_END → ℕ)) (params : ReferenceEnvironmentParameters) :
    (ReferenceEnvironmentProvider.new source seeds params).params = params ∧
    (badProvider.get_factors 0 0).isSome = true := by
  refine ⟨rfl, ?_⟩
  rw [get_factors_of_valid badProvider 0 0 (decide_eq_true abs_zero_lt_one)]
  rfl

/-- C7: `from_normalized` stores `normalized` unchanged and its `value`
is exactly the affine expression `min + normalized * (max - min)`. -/
theorem c7_from_normalized_exact (range : ValueRange) (t : ℝ)
    (h0 : 0 ≤ t) (h1 : t ≤ 1) :
    (ValueWithNormalized.from_normalized t range).normalized = t ∧
    (ValueWithNormalized.from_normalized t range).value
      = range.min + t * (range.max - range.min) :=
  ⟨rfl, rfl⟩

/-- Witness for C7 at `normalized = 1` and range `[0, 1]`. -/
theorem c7_witness :
    (ValueWithNormalized.from_normalized 1 { min := 0, max := 1 }).normalized = 1 ∧
    (ValueWithNormalized.from_normalized 1 { min := 0, max := 1 }).value
      = 0 + 1 * (1 - 0) :=
  ⟨(c7_from_normalized_exact { min := 0, max := 1 } 1 zero_le_one (le_refl 1)).1,
   (c7_from_normalized_exact { min := 0, max := 1 } 1 zero_le_one (le_refl 1)).2⟩

/-- C8: with one octave, the fractal sampler returns exactly the raw
generator sample of the addressed layer at `(x, y)`. -/
theorem c8_octave_reduction (P : ReferenceEnvironmentProvider) (x y p : ℝ) (idx : ℕ)
    (h : idx < P.noises.length) :
    P.get_noise x y 1 p idx = P.noises.getD idx (fun _ _ => 0) x y := by
  unfold ReferenceEnvironmentProvider.get_noise
  rw [if_neg (not_le.mpr h)]
  show (octaveIter _ x y p 1).value / (octaveIter _ x y p 1).max_value = _
  simp [octaveIter, octaveStep]

/-- Witness for C8 at layer `0` of the default provider. -/
theorem c8_witness :
    0 < defaultProvider.noises.length ∧
    defaultProvider.get_noise 2 3 1 0.7 0
      = defaultProvider.noises.getD 0 (fun _ _ => 0) 2 3 := by
  have h : 0 < defaultProvider.noises.length := by
    unfold defaultProvider
    rw [noises_new_none_length]
    exact Nat.succ_pos 9
  exact ⟨h, c8_octave_reduction defaultProvider 2 3 0.7 0 h⟩

/-- C10: the returned `virtual_latitude` is the configured latitude
function at the original query point, while `temperature_surface` is the
temperature function of the latitude at the current-advected offset
point. -/
theorem c10_latitude_unadvected (P : ReferenceEnvironmentProvider) (x y : ℝ) :
    (factorsAt P x y).virtual_latitude = P.params.virtual_latitude_fn x y ∧
    (factorsAt P x y).temperature_surface
      = P.params.temperature_surface_fn
          (P.params.virtual_latitude_fn
            (x + Real.cos (factorsAt P x y).ocean_current_angle *
              P.params.ocean_current_elevation_effect_distance *
              (factorsAt P x y).ocean_current_magnitude)
            (y + Real.sin (factorsAt P x y).ocean_current_angle *
              P.params.ocean_current_elevation_effect_distance *
              (factorsAt P x y).ocean_current_magnitude)) :=
  ⟨rfl, rfl⟩

/-- C9: the returned atmospheric pressure is the latitude band
`-cos(2 pi y)/2 + 1/2` of the unwarped `y`, blended with a one-octave
sample of the pressure layer at the scaled coordinates in proportion
`atmosphere_pressure_noise_prop`; and valid queries indeed return this
bundle. -/
theorem c9_atmosphere_pressure (P : ReferenceEnvironmentProvider) (x y : ℝ) :
    (factorsAt P x y).atmosphere_pressure_normalized
      = (-(Real.cos (2 * Real.pi * y)) / 2 + 0.5) *
          (1 - P.params.atmosphere_pressure_noise_prop) +
        P.get_noise (x / P.params.atmosphere_pressure_scale)
            (y / P.params.atmosphere_pressure_scale) 1 0.5 NOISE_ATMOSPHERE_PRESSURE *
          P.params.atmosphere_pressure_noise_prop ∧
    (P.params.valid_fn x y = true → P.get_factors x y = some (factorsAt P x y)) := by
  constructor
  · show atmospherePressureFn P x y = _
    unfold atmospherePressureFn
    rw [show y * Real.pi * 2 = 2 * Real.pi * y from by ring]
    ring
  · exact get_factors_of_valid P x y

/-- Witness for C9: the default provider accepts the origin. -/
theorem c9_witness :
    defaultProvider.get_factors 0 0 = some (factorsAt defaultProvider 0 0) :=
  (c9_atmosphere_pressure defaultProvider 0 0).2 (decide_eq_true abs_zero_lt_one)

/-- C5: the ocean-current magnitude equals
`diff * (1 - max(elevation.normalized, 0)) / perlin_noise_max_gradient *
ocean_current_scale`, and it vanishes wherever `elevation.normalized = 1`. -/
theorem c5_ocean_current_magnitude (P : ReferenceEnvironmentProvider) (x y : ℝ) :
    (factorsAt P x y).ocean_current_magnitude
      = (P.create_vector_field_noise x y (oceanCurrentNoiseFn P) (Real.pi / 4) 1e-9).2 *
          (1 - max (P.get_primitive_elevation_factors x y).elevation.normalized 0) /
          perlin_noise_max_gradient * P.params.ocean_current_scale ∧
    ((P.get_primitive_elevation_factors x y).elevation.normalized = 1 →
      (factorsAt P x y).ocean_current_magnitude = 0) := by
  refine ⟨rfl, ?_⟩
  intro h
  show (P.create_vector_field_noise x y (oceanCurrentNoiseFn P) (Real.pi / 4) 1e-9).2 *
      (1 - max (P.get_primitive_elevation_factors x y).elevation.normalized 0) /
      perlin_noise_max_gradient * P.params.ocean_current_scale = 0
  rw [h]
  norm_num

/-- On the degenerate full-land configuration, the elevation model
returns `normalized = 1` at the origin. -/
lemma fullLand_elevation_one :
    (fullLandProvider.get_primitive_elevation_factors 0 0).elevation.normalized = 1 := by
  have hlen : fullLandProvider.noises.length = 10 := by
    unfold fullLandProvider
    exact noises_new_none_length _ _
  have hg : ∀ k, k < 10 → ∀ a b,
      fullLandProvider.noises.getD k (fun _ _ => 0) a b = landOneSource k a b := by
    intro k hk a b
    unfold fullLandProvider
    rw [noises_new_none_getD landOneSource fullLandParams k hk]
  have n0 : ∀ a b, fullLandProvider.get_noise a b 3 0.5 NOISE_PRIMITIVE_CONTINENT = 0 := by
    intro a b
    refine get_noise_const _ 0 a b 0.5 _ 3 (by rw [hlen]; decide) ?_ (by norm_num)
      (by norm_num)
    intro u v
    rw [hg NOISE_PRIMITIVE_CONTINENT (by decide) u v]
    rfl
  have n1 : ∀ a b, fullLandProvider.get_noise a b 3 0.5 NOISE_PRIMITIVE_PERSISTENCE = 0 := by
    intro a b
    refine get_noise_const _ 0 a b 0.5 _ 3 (by rw [hlen]; decide) ?_ (by norm_num)
      (by norm_num)
    intro u v
    rw [hg NOISE_PRIMITIVE_PERSISTENCE (by decide) u v]
    rfl
  have n2 : ∀ q a b, q = (1 / 2 : ℝ) →
      fullLandProvider.get_noise a b 8 q NOISE_PRIMITIVE_LAND = 1 := by
    intro q a b hq
    subst hq
    refine get_noise_const _ 1 a b (1 / 2) _ 8 (by rw [hlen]; decide) ?_ (by norm_num)
      (by norm_num)
    intro u v
    rw [hg NOISE_PRIMITIVE_LAND (by decide) u v]
    rfl
  unfold ReferenceEnvironmentProvider.get_primitive_elevation_factors
  simp only [ValueWithNormalized.from_normalized, n0, n1]
  have hparams : fullLandProvider.params = fullLandParams := rfl
  rw [hparams]
  have hpersist : fullLandParams.primitive_persistence_range = { min := 0.5, max := 0.5 } := rfl
  simp only [hpersist]
  rw [n2 _ _ _ (by norm_num)]
  norm_num [fullLandParams, defaultParameters, rustSignum, Real.one_rpow]

/-- Witness for C5: the full-land provider has zero ocean-current
magnitude at the origin. -/
theorem c5_witness :
    (factorsAt fullLandProvider 0 0).ocean_current_magnitude = 0 :=
  (c5_ocean_current_magnitude fullLandProvider 0 0).2 fullLand_elevation_one

/-- C3 (failing-input evaluation): with the default parameters and a
continent generator that constantly returns `-1` (a value inside the
simplex range `[-1, 1]`), the shelf at the origin is `-3/5 = -2 *
primitive_shelf_depth`, strictly below the documented lower bound
`-primitive_shelf_depth = -3/10`. -/
theorem c3_shelf_escapes_documented_range :
    (∀ s a b, |negSource s a b| ≤ 1) ∧
    (negProvider.get_primitive_elevation_factors 0 0).shelf = -(3/5) ∧
    (negProvider.get_primitive_elevation_factors 0 0).shelf
      < -defaultParameters.primitive_shelf_depth := by
  have hlen : negProvider.noises.length = 10 := by
    unfold negProvider
    exact noises_new_none_length _ _
  have n0 : ∀ a b, negProvider.get_noise a b 3 0.5 NOISE_PRIMITIVE_CONTINENT = -1 := by
    intro a b
    refine get_noise_const _ (-1) a b 0.5 _ 3 (by rw [hlen]; decide) ?_ (by norm_num)
      (by norm_num)
    intro u v
    unfold negProvider
    rw [noises_new_none_getD negSource defaultParameters NOISE_PRIMITIVE_CONTINENT
      (by decide)]
    rfl
  have hshelf : (negProvider.get_primitive_elevation_factors 0 0).shelf = -(3/5) := by
    unfold ReferenceEnvironmentProvider.get_primitive_elevation_factors
    simp only [n0]
    have hparams : negProvider.params = defaultParameters := rfl
    rw [hparams]
    norm_num [defaultParameters, rustSignum, Real.one_rpow]
  refine ⟨fun s a b => by rw [show negSource s a b = -1 from rfl]; norm_num, hshelf, ?_⟩
  rw [hshelf]
  norm_num [defaultParameters]

/-! Machinery for C4: the imperative minimum search of `get_gradient`
coincides with the declarative first-minimum of the sample list. -/

lemma foldl_innerStep_eq (f : NoiseFn) (x y d r0 stp : ℝ) (n : ℕ) (acc : ℝ × ℝ) :
    (List.range n).foldl (innerStep f x y d r0 stp) acc
      = (specSamples f x y d r0 stp n).foldl argminStep acc := by
  unfold specSamples
  rw [List.foldl_map]
  rfl

lemma foldl_argmin_fst_le (l : List (ℝ × ℝ)) :
    ∀ acc : ℝ × ℝ, (l.foldl argminStep acc).1 ≤ acc.1 := by
  induction l with
  | nil => intro acc; exact le_refl _
  | cons p rest ih =>
    intro acc
    refine le_trans (ih (argminStep acc p)) ?_
    unfold argminStep
    split
    · next h => exact le_of_lt h
    · exact le_refl _

lemma foldl_argmin_le_of_mem (l : List (ℝ × ℝ)) :
    ∀ acc q : ℝ × ℝ, q ∈ l → (l.foldl argminStep acc).1 ≤ q.1 := by
  induction l with
  | nil => intro acc q hq; exact absurd hq (List.not_mem_nil q)
  | cons p rest ih =>
    intro acc q hq
    rcases List.mem_cons.mp hq with h | h
    · subst h
      refine le_trans (foldl_argmin_fst_le rest (argminStep acc q)) ?_
      unfold argminStep
      split
      · exact le_refl _
      · next h2 => exact not_lt.mp h2
    · exact ih (argminStep acc p) q h

lemma foldl_argmin_mem (l : List (ℝ × ℝ)) :
    ∀ acc : ℝ × ℝ, l.foldl argminStep acc = acc ∨ l.foldl argminStep acc ∈ l := by
  induction l with
  | nil => intro acc; exact Or.inl rfl
  | cons p rest ih =>
    intro acc
    rcases ih (argminStep acc p) with h | h
    · show rest.foldl argminStep (argminStep acc p) = acc ∨
        rest.foldl argminStep (argminStep acc p) ∈ p :: rest
      rw [h]
      unfold argminStep
      split
      · exact Or.inr (List.mem_cons_self p rest)
      · exact Or.inl rfl
    · exact Or.inr (List.mem_cons_of_mem p h)

lemma firstMinSample_mem (p : ℝ × ℝ) (rest : List (ℝ × ℝ)) (dflt : ℝ × ℝ) :
    firstMinSample (p :: rest) dflt ∈ p :: rest := by
  show rest.foldl argminStep p ∈ p :: rest
  rcases foldl_argmin_mem rest p with h | h
  · rw [h]; exact List.mem_cons_self p rest
  · exact List.mem_cons_of_mem p h

lemma firstMinSample_le (l : List (ℝ × ℝ)) (dflt q : ℝ × ℝ) (hq : q ∈ l) :
    (firstMinSample l dflt).1 ≤ q.1 := by
  cases l with
  | nil => exact absurd hq (List.not_mem_nil q)
  | cons p rest =>
    show (rest.foldl argminStep p).1 ≤ q.1
    rcases List.mem_cons.mp hq with h | h
    · subst h; exact foldl_argmin_fst_le rest q
    · exact foldl_argmin_le_of_mem rest p q h

lemma foldl_from_f64MAX (p : ℝ × ℝ) (rest : List (ℝ × ℝ)) (hp : p.1 < f64MAX) :
    (p :: rest).foldl argminStep (f64MAX, 0) = firstMinSample (p :: rest) (f64MAX, 0) := by
  show rest.foldl argminStep (argminStep (f64MAX, 0) p) = rest.foldl argminStep p
  rw [show argminStep (f64MAX, 0) p = p from by unfold argminStep; exact if_pos hp]

lemma specSamples_cons (f : NoiseFn) (x y d r0 stp : ℝ) (m : ℕ) :
    specSamples f x y d r0 stp (m + 1)
      = samplePoint f x y d r0 stp 0 ::
          (List.range m).map (fun i => samplePoint f x y d r0 stp (i + 1)) := by
  unfold specSamples
  rw [List.range_succ_eq_map, List.map_cons, List.map_map]
  rfl

lemma gradStep_eq_spec (sN : ℤ) (f : NoiseFn) (x y d : ℝ)
    (hn : 1 ≤ sN.toNat) (hf : ∀ a b, f a b < f64MAX) (st : GradState) :
    gradStep sN f x y d st = specGradStep sN f x y d st := by
  obtain ⟨m, hm⟩ : ∃ m, sN.toNat = m + 1 := ⟨sN.toNat - 1, by omega⟩
  have key : (List.range sN.toNat).foldl
      (innerStep f x y d st.range_lo
        ((st.range_hi - st.range_lo) / ((sN - 1 : ℤ) : ℝ))) (f64MAX, 0)
      = firstMinSample
          (specSamples f x y d st.range_lo
            ((st.range_hi - st.range_lo) / ((sN - 1 : ℤ) : ℝ)) sN.toNat) (f64MAX, 0) := by
    rw [foldl_innerStep_eq, hm, specSamples_cons]
    exact foldl_from_f64MAX _ _ (hf _ _)
  simp only [gradStep, specGradStep, iterMin, iterSamples, stepWidth]
  rw [key]

lemma gradIterate_eq_spec (sN : ℤ) (f : NoiseFn) (x y d : ℝ)
    (hn : 1 ≤ sN.toNat) (hf : ∀ a b, f a b < f64MAX) :
    ∀ (k : ℕ) (st : GradState),
      gradIterate sN f x y d k st = specGradIterate sN f x y d k st := by
  intro k
  induction k with
  | zero => intro st; rfl
  | succ k ih =>
    intro st
    show gradIterate sN f x y d k (gradStep sN f x y d st)
      = specGradIterate sN f x y d k (specGradStep sN f x y d st)
    rw [gradStep_eq_spec sN f x y d hn hf st]
    exact ih _

lemma stepWidth_spans (sN : ℤ) (hn : 2 ≤ sN) (st : GradState) :
    st.range_lo + stepWidth sN st * ((sN.toNat - 1 : ℕ) : ℝ) = st.range_hi := by
  unfold stepWidth
  have h2 : ((sN.toNat : ℕ) : ℤ) = sN := Int.toNat_of_nonneg (by omega)
  have h1 : ((sN.toNat - 1 : ℕ) : ℝ) = ((sN - 1 : ℤ) : ℝ) := by
    rw [Nat.cast_sub (by omega : 1 ≤ sN.toNat)]
    have h3 : ((sN.toNat : ℕ) : ℝ) = ((sN : ℤ) : ℝ) := by exact_mod_cast congrArg Int.cast h2
    rw [h3]
    push_cast
    ring
  have hne : ((sN - 1 : ℤ) : ℝ) ≠ 0 := by
    have hgt : (0 : ℤ) < sN - 1 := by omega
    have : (0 : ℝ) < ((sN - 1 : ℤ) : ℝ) := by exact_mod_cast hgt
    exact ne_of_gt this
  rw [h1, div_mul_cancel₀ _ hne]
  ring

/-- C4: the gradient estimator is exactly the iterated angular search the
spec describes — per iteration it samples the field at
`gradient_sample_num` equally spaced angles spanning the current range at
distance `d`, keeps the first minimum-valued sample, narrows the range to
that angle plus or minus half the step, and finally returns the last
minimizing angle together with the slope
`(final_min_value - f x y) / d`. -/
theorem c4_gradient_estimator (P : ReferenceEnvironmentProvider) (f : NoiseFn)
    (x y d : ℝ) (hn : 2 ≤ P.params.gradient_sample_num)
    (hiter : 1 ≤ P.params.gradient_iteration) (hd : d ≠ 0)
    (hf : ∀ a b, f a b < f64MAX) :
    P.get_gradient x y d f
      = specGradient P.params.gradient_sample_num P.params.gradient_iteration f x y d ∧
    (∀ st : GradState, iterMin P.params.gradient_sample_num f x y d st
        ∈ iterSamples P.params.gradient_sample_num f x y d st) ∧
    (∀ (st : GradState) (q : ℝ × ℝ),
      q ∈ iterSamples P.params.gradient_sample_num f x y d st →
      (iterMin P.params.gradient_sample_num f x y d st).1 ≤ q.1) ∧
    (∀ st : GradState, (iterSamples P.params.gradient_sample_num f x y d st).length
        = P.params.gradient_sample_num.toNat) ∧
    (∀ st : GradState, specGradStep P.params.gradient_sample_num f x y d st
        = { final_angle := (iterMin P.params.gradient_sample_num f x y d st).2
            final_value := (iterMin P.params.gradient_sample_num f x y d st).1
            range_lo := (iterMin P.params.gradient_sample_num f x y d st).2 -
              stepWidth P.params.gradient_sample_num st * 0.5
            range_hi := (iterMin P.params.gradient_sample_num f x y d st).2 +
              stepWidth P.params.gradient_sample_num st * 0.5 }) ∧
    (∀ st : GradState,
      st.range_lo + stepWidth P.params.gradient_sample_num st *
        ((P.params.gradient_sample_num.toNat - 1 : ℕ) : ℝ) = st.range_hi) := by
  have hn1 : 1 ≤ P.params.gradient_sample_num.toNat := by omega
  obtain ⟨m, hm⟩ : ∃ m, P.params.gradient_sample_num.toNat = m + 1 :=
    ⟨P.params.gradient_sample_num.toNat - 1, by omega⟩
  refine ⟨?_, ?_, ?_, ?_, ?_, ?_⟩
  · unfold ReferenceEnvironmentProvider.get_gradient specGradient
    rw [gradIterate_eq_spec P.params.gradient_sample_num f x y d hn1 hf]
  · intro st
    simp only [iterMin, iterSamples]
    rw [hm, specSamples_cons]
    exact firstMinSample_mem _ _ _
  · intro st q hq
    exact firstMinSample_le _ _ q hq
  · intro st
    simp [iterSamples, specSamples]
  · intro st
    rfl
  · intro st
    exact stepWidth_spans P.params.gradient_sample_num hn st

/-- Witness for C4 at the minimal legitimate configuration
(`sample_num = 2`, one iteration) on the zero field with `d = 1`. -/
theorem c4_witness :
    gradProvider.get_gradient 0 0 1 (fun _ _ => 0)
      = specGradient gradProvider.params.gradient_sample_num
          gradProvider.params.gradient_iteration (fun _ _ => 0) 0 0 1 :=
  (c4_gradient_estimator gradProvider (fun _ _ => 0) 0 0 1 (by decide) (by decide)
    one_ne_zero fun a b => f64MAX_pos).1

end
